import Mathlib

/-!
Verification of the `internal-audit` OHS compliance-audit application
(`audit/models.py`, `audit/forms.py`, `audit/views.py`) against its
natural-language specification.

The Django models, forms and view handlers are shallowly embedded as
executable Lean definitions: entity rows become structures, the database
tables become lists of rows, the uniqueness constraint of
`unique_together` becomes a membership check on insert, and each view's
`post`/`get` handler becomes a pure function from its parsed inputs to a
response value plus the updated store.
-/

namespace InternalAudit

/-- JSON error values as the views actually emit them: some handlers map a
field name to a single message string (e.g. `'__all__': 'Invalid username
or password.'` in `LoginAjaxView.post`), others to a list of message
strings (e.g. `{'to_email': ['Enter a valid email address.']}` in
`AuditShareAjaxView.post`). -/
inductive ErrVal where
  | str (s : String)
  | list (l : List String)
  deriving DecidableEq, Repr

/-- An error mapping: field name → error value, as returned in the JSON
body `{'success': False, 'errors': {...}}`. -/
abbrev Errors := List (String × ErrVal)

/-! ## Checklist categories (`audit/models.py`)

Eleven structurally identical checklist models, each with a foreign key to
`Audit`, an item-type code from a category-specific choice list, and
`Meta.unique_together = ['audit', <item-type field>]`. -/

/-- The eleven checklist-category models of `audit/models.py`. -/
inductive Category where
  | legalAppointment
  | ohsDocumentation
  | trainingCommunication
  | inspectionRegister
  | publicSafetySecurity
  | employeeProtection
  | firePrevention
  | occupationalHealth
  | incidentManagement
  | intoxicationManagement
  | trafficAccommodation
  deriving DecidableEq, Repr

/-- `LegalAppointment.APPOINTMENT_TYPES` codes. -/
def appointmentTypes : List String :=
  ["CEO_16_1", "CEO_16_2", "CONSTR_MGR_8_1", "HCA", "CONSTR_SUP_8_7",
   "ELEC_INSP", "CHS_OFFICER_8_5", "FIRE_INSP_29H", "ENV_OFFICER",
   "EMERGENCY_COORD", "HS_REP_17_1", "EXCAVATION_SUP_13_1",
   "RISK_ASSESSOR_9_1", "PPE_INSP", "FIRST_AIDER", "HAND_TOOLS_INSP",
   "STACKING_STORAGE", "HS_COMMITTEE", "HYGIENE_INSP", "INCIDENT_INVEST",
   "PORTABLE_ELEC_INSP", "HOUSEKEEPING", "VEHICLE_INSP", "TRAFFIC_SAFETY",
   "HS_CHAIRPERSON", "VEHICLE_OPERATOR"]

/-- `OHSDocumentation.DOCUMENT_TYPES` codes. -/
def documentTypes : List String :=
  ["SHE_FILE", "CLIENT_SPECS", "RISK_ASSESSMENT", "CONSTRUCTION_NOTICE",
   "COIDA", "INCIDENT_REGISTERS", "WCL_FORMS", "ACT_DISPLAY",
   "CONTRACTOR_APPOINTMENT", "MANDATORY_AGREEMENTS", "POLICIES"]

/-- `TrainingCommunication.TRAINING_TYPES` codes. -/
def trainingTypes : List String :=
  ["INDUCTION_MANUAL", "SAFETY_TALKS", "DAILY_RISK_ASSESS", "TRAFFIC_MEETINGS"]

/-- `InspectionRegister.REGISTER_TYPES` codes. -/
def registerTypes : List String :=
  ["HS_REP_CHECKLIST", "FIRST_AID_BOX", "FIRE_EQUIPMENT", "FACILITIES_HYGIENE",
   "STACKING_STORAGE", "HAND_TOOL", "MOBILE_PLANT", "PPE_REGISTER",
   "INCIDENT_REGISTER", "EXCAVATION", "HOUSEKEEPING", "VEHICLE_PRE_START",
   "SIGNAGE", "HYGIENE"]

/-- `PublicSafetySecurity.SECURITY_ITEMS` codes. -/
def securityItems : List String :=
  ["ACCESS_CONTROL", "GUARDHOUSE", "SECURITY_PERSONNEL", "PSIRA_REGISTRATION",
   "SECURITY_RISK_ASSESS", "FIRE_EXTINGUISHER", "SECURITY_LETTER",
   "SECURITY_MEDICAL", "SECURITY_AGREEMENT", "SECURITY_APPOINTMENT",
   "PSIRA_REG", "SECURITY_PPE"]

/-- `EmployeeProtection.PROTECTION_ITEMS` codes. -/
def protectionItems : List String :=
  ["PPE_ISSUED", "AWARENESS", "PROCEDURES"]

/-- `FirePrevention.FIRE_ITEMS` codes. -/
def fireItems : List String :=
  ["EQUIPMENT_AVAILABLE", "FIRE_FIGHTER_APPOINT", "AWARENESS", "COMPETENCIES",
   "EVACUATION_PLAN", "EVACUATION_DRILL", "EMERGENCY_CONTACTS"]

/-- `OccupationalHealth.HEALTH_ITEMS` codes. -/
def healthItems : List String :=
  ["ENTRY_MEDICAL_EXAM", "MEDICAL_COPIES", "ID_COPIES"]

/-- `IncidentManagement.INCIDENT_ITEMS` codes. -/
def incidentItems : List String :=
  ["PROCEDURE", "ANNEXURE", "WCL_FORMS", "DISCIPLINARY_PROC", "NEAR_MISS",
   "FIRST_AID_RECORDS"]

/-- `IntoxicationManagement.INTOXICATION_ITEMS` codes. -/
def intoxicationItems : List String :=
  ["RANDOM_TESTING", "DISCIPLINARY_PROC", "ALCOHOL_DRUGS_POLICY", "BREATHALYSER"]

/-- `TrafficAccommodation.TRAFFIC_ITEMS` codes. -/
def trafficItems : List String :=
  ["FLAG_PEOPLE_TRAINED", "SIGNS_UPDATED", "UPDATE_REGISTER", "ROAD_CLEAN",
   "DEVIATION_DAMPED", "DEVIATION_BLADED", "CHILDREN_PROTECTION",
   "VEHICLES_CONDITION", "SAFETY_FEATURES", "OPENINGS_BARRICADED",
   "FLAG_POSITIONS", "SIGNS_PLACEMENT", "SIGNS_REGISTER"]

/-- The item-type choice list of each category (`APPOINTMENT_TYPES`,
`DOCUMENT_TYPES`, `TRAINING_TYPES`, ...). -/
def itemTypeCodes : Category → List String
  | .legalAppointment => appointmentTypes
  | .ohsDocumentation => documentTypes
  | .trainingCommunication => trainingTypes
  | .inspectionRegister => registerTypes
  | .publicSafetySecurity => securityItems
  | .employeeProtection => protectionItems
  | .firePrevention => fireItems
  | .occupationalHealth => healthItems
  | .incidentManagement => incidentItems
  | .intoxicationManagement => intoxicationItems
  | .trafficAccommodation => trafficItems

/-- One row of a checklist-category table.  `item_type` is the category's
item-type column (`appointment_type` for `LegalAppointment`,
`document_type` for `OHSDocumentation`, `register_type` for
`InspectionRegister`, `item_type` for the rest); `appointed_person` is
only carried by `LegalAppointment` and is `none` elsewhere. -/
structure ChecklistRow where
  category : Category
  audit : Nat
  item_type : String
  required_score : Nat
  actual_score : Nat
  appointed_person : Option String
  comments : Option String
  deriving DecidableEq, Repr

/-- Whether two rows collide on the `unique_together = ['audit',
<item-type field>]` key of their (shared) category table. -/
def sameKey (a b : ChecklistRow) : Prop :=
  a.category = b.category ∧ a.audit = b.audit ∧ a.item_type = b.item_type

instance : DecidablePred fun p : ChecklistRow × ChecklistRow => sameKey p.1 p.2 :=
  fun _ => by unfold sameKey; infer_instance

instance (a b : ChecklistRow) : Decidable (sameKey a b) := by
  unfold sameKey; infer_instance

/-- Inserting a checklist row into the store: the database rejects the
insert with a uniqueness error exactly when a row with the same
`(audit, item_type)` key already exists in that category's table
(`Meta.unique_together`); otherwise the row is appended. -/
def insertChecklist (store : List ChecklistRow) (r : ChecklistRow) :
    Except String (List ChecklistRow) :=
  if store.any (fun x => decide (sameKey x r)) then
    .error "UNIQUE constraint failed"
  else
    .ok (store ++ [r])

/-- The state invariant of §3: at most one record per `(audit, item_type)`
pair per category, i.e. no two distinct positions in the store share a
key. -/
def UniquePerAudit (store : List ChecklistRow) : Prop :=
  store.Pairwise (fun a b => ¬ sameKey a b)

/-! ## The `Audit` model and `AuditModelForm` (`audit/models.py`,
`audit/forms.py`)

Decimal fields with `decimal_places=2` are represented exactly in
hundredths (an `Int` value `c` stands for the decimal `c / 100`), so the
bound `value ≤ 100` becomes `c ≤ 10000` and `max_digits=5` becomes
`|c| ≤ 99999`.  Calendar dates are represented as day numbers. -/

/-- A persisted `Audit` row. -/
structure AuditRow where
  id : Nat
  project : Nat
  audit_date : Nat
  audit_type : String
  audit_number : String
  performed_by : String
  report_number : String
  overall_score_percentage : Int
  standard_required : Int
  improvement_notices : Int
  contravention_notices : Int
  prohibition_notices : Int
  deriving DecidableEq, Repr

/-- The combined JSON payload accepted by `AuditCreateView.post`, after
field-wise parsing: `none` means the key was absent (or its value failed
to parse into the field's type), which `AuditModelForm` reports as a field
error either way. -/
structure AuditPayload where
  project : Option Nat
  audit_date : Option Nat
  audit_type : Option String
  audit_number : Option String
  performed_by : Option String
  report_number : Option String
  overall_score_percentage : Option Int
  standard_required : Option Int
  improvement_notices : Option Int
  contravention_notices : Option Int
  prohibition_notices : Option Int
  deriving DecidableEq, Repr

/-- `Audit.AUDIT_TYPES` codes. -/
def auditTypes : List String := ["OHS", "ENV", "QUAL"]

/-- Validation of a required `CharField(max_length=n)` form field. -/
def validateChar (maxLen : Nat) (v : Option String) : List String :=
  match v with
  | none => ["This field is required."]
  | some s =>
      if s = "" then ["This field is required."]
      else if maxLen < s.length then
        ["Ensure this value has at most " ++ toString maxLen ++ " characters."]
      else []

/-- Validation of the required `audit_date` `DateField`. -/
def validateDate (v : Option Nat) : List String :=
  match v with
  | none => ["This field is required."]
  | some _ => []

/-- Validation of the `audit_type` `CharField(choices=AUDIT_TYPES)`. -/
def validateAuditType (v : Option String) : List String :=
  match v with
  | none => ["This field is required."]
  | some s =>
      if auditTypes.contains s then []
      else ["Select a valid choice. " ++ s ++ " is not one of the available choices."]

/-- Validation of the `project` `ForeignKey`: the referenced primary key
must name an existing `Project` row. -/
def validateProject (projects : List Nat) (v : Option Nat) : List String :=
  match v with
  | none => ["This field is required."]
  | some pid =>
      if projects.contains pid then []
      else ["Select a valid choice. That choice is not one of the available choices."]

/-- Validation of `overall_score_percentage` / `standard_required`:
`DecimalField(max_digits=5, decimal_places=2,
validators=[MinValueValidator(0), MaxValueValidator(100)])`.  The value is
in hundredths. -/
def validateScoreField (v : Option Int) : List String :=
  match v with
  | none => ["This field is required."]
  | some c =>
      (if c < 0 then ["Ensure this value is greater than or equal to 0."] else []) ++
      (if 10000 < c then ["Ensure this value is less than or equal to 100."] else []) ++
      (if 99999 < c.natAbs then
        ["Ensure that there are no more than 5 digits in total."] else [])

/-- Validation of the notice counters: plain `IntegerField(default=0)`,
whose generated form field only carries the backend 32-bit integer-range
validators — no minimum-value constraint of its own. -/
def validateNoticeField (v : Option Int) : List String :=
  match v with
  | none => ["This field is required."]
  | some n =>
      (if n < -2147483648 then
        ["Ensure this value is greater than or equal to -2147483648."] else []) ++
      (if 2147483647 < n then
        ["Ensure this value is less than or equal to 2147483647."] else [])

/-- The field names of `AuditModelForm.Meta.fields`, in order. -/
def auditFormFields : List String :=
  ["project", "audit_date", "audit_type", "audit_number", "performed_by",
   "report_number", "overall_score_percentage", "standard_required",
   "improvement_notices", "contravention_notices", "prohibition_notices"]

/-- The per-field error messages `AuditModelForm` produces for one field
name of the submitted payload. -/
def auditFieldErrors (projects : List Nat) (p : AuditPayload) (k : String) :
    List String :=
  if k = "project" then validateProject projects p.project
  else if k = "audit_date" then validateDate p.audit_date
  else if k = "audit_type" then validateAuditType p.audit_type
  else if k = "audit_number" then validateChar 50 p.audit_number
  else if k = "performed_by" then validateChar 200 p.performed_by
  else if k = "report_number" then validateChar 100 p.report_number
  else if k = "overall_score_percentage" then validateScoreField p.overall_score_percentage
  else if k = "standard_required" then validateScoreField p.standard_required
  else if k = "improvement_notices" then validateNoticeField p.improvement_notices
  else if k = "contravention_notices" then validateNoticeField p.contravention_notices
  else if k = "prohibition_notices" then validateNoticeField p.prohibition_notices
  else []

/-- `form.errors` of `AuditModelForm`: the mapping of field name → list of
messages, restricted to the fields that actually failed. -/
def auditFormErrors (projects : List Nat) (p : AuditPayload) : Errors :=
  (auditFormFields.filter
    (fun k => !(auditFieldErrors projects p k).isEmpty)).map
    (fun k => (k, ErrVal.list (auditFieldErrors projects p k)))

/-- The entity store as seen by the audit-creation endpoint: the existing
`Project` primary keys, the `Audit` table, and the next generated primary
key. -/
structure Store where
  projects : List Nat
  audits : List AuditRow
  nextAuditId : Nat
  deriving DecidableEq, Repr

/-- `form.save()` on a valid `AuditModelForm`: build the new row from the
cleaned data (the `getD` defaults mirror the model defaults and are only
reached for fields the validator already rejected as missing). -/
def buildAudit (id : Nat) (p : AuditPayload) : AuditRow :=
  { id := id
    project := p.project.getD 0
    audit_date := p.audit_date.getD 0
    audit_type := p.audit_type.getD "OHS"
    audit_number := p.audit_number.getD ""
    performed_by := p.performed_by.getD ""
    report_number := p.report_number.getD ""
    overall_score_percentage := p.overall_score_percentage.getD 0
    standard_required := p.standard_required.getD 7500
    improvement_notices := p.improvement_notices.getD 0
    contravention_notices := p.contravention_notices.getD 0
    prohibition_notices := p.prohibition_notices.getD 0 }

/-- Response of `AuditCreateView.post`. -/
structure CreateResponse where
  status : Nat
  success : Bool
  id : Option Nat
  errors : Errors
  deriving DecidableEq, Repr

/-- `AuditCreateView.post`: a `none` payload models a request whose body
failed JSON decoding; otherwise the combined payload is validated with
`AuditModelForm`, and on success exactly one new `Audit` is persisted and
its generated id returned, while on failure the error mapping is returned
and the store is left untouched. -/
def auditCreate (store : Store) (payload : Option AuditPayload) :
    CreateResponse × Store :=
  match payload with
  | none =>
      ({ status := 400, success := false, id := none,
         errors := [("__all__", .str "Invalid JSON payload.")] }, store)
  | some p =>
      let errs := auditFormErrors store.projects p
      if errs.isEmpty then
        ({ status := 200, success := true, id := some store.nextAuditId,
           errors := [] },
         { store with
             audits := store.audits ++ [buildAudit store.nextAuditId p]
             nextAuditId := store.nextAuditId + 1 })
      else
        ({ status := 400, success := false, id := none, errors := errs }, store)

/-! ## `ReportDashboard.get_context_data` (`audit/views.py`)

`Audit.objects...order_by('-audit_date')` followed by
`Paginator(audit_qs, 10)` and the `PageNotAnInteger` / `EmptyPage`
clamping of the `page` query parameter. -/

/-- The dashboard ordering `order_by('-audit_date')`: descending audit
date. -/
def auditDateDesc (a b : AuditRow) : Prop := b.audit_date ≤ a.audit_date

instance : DecidableRel auditDateDesc :=
  fun a b => inferInstanceAs (Decidable (b.audit_date ≤ a.audit_date))

instance : IsTotal AuditRow auditDateDesc :=
  ⟨fun a b => (Nat.le_total a.audit_date b.audit_date).symm⟩

instance : IsTrans AuditRow auditDateDesc :=
  ⟨fun _ _ _ h h₂ => Nat.le_trans h₂ h⟩

/-- The audit queryset ordered by audit date descending. -/
def orderedAudits (audits : List AuditRow) : List AuditRow :=
  audits.insertionSort auditDateDesc

/-- `Paginator.num_pages` with `per_page=10`, `orphans=0`,
`allow_empty_first_page=True`: `ceil(max(1, count) / 10)`. -/
def numPages (count : Nat) : Nat := (max 1 count + 9) / 10

/-- The `page` query parameter as the view sees it: absent
(`request.GET.get('page')` returns `None`), non-numeric, or an integer. -/
inductive PageParam where
  | missing
  | nonNumeric
  | num (n : Int)
  deriving DecidableEq, Repr

/-- The page number actually served: `paginator.page(page)` with the
view's `except PageNotAnInteger: page(1)` and
`except EmptyPage: page(paginator.num_pages)` handlers.  A missing or
non-numeric parameter raises `PageNotAnInteger` (caught → page 1); a
numeric page below 1 or beyond the last raises `EmptyPage`
(caught → last page). -/
def resolvedPage (count : Nat) (p : PageParam) : Nat :=
  match p with
  | .missing => 1
  | .nonNumeric => 1
  | .num n =>
      if n < 1 then numPages count
      else if (numPages count : Int) < n then numPages count
      else n.toNat

/-- The `object_list` of the served dashboard page. -/
def dashboardPage (audits : List AuditRow) (p : PageParam) : List AuditRow :=
  let sorted := orderedAudits audits
  let page := resolvedPage audits.length p
  (sorted.drop ((page - 1) * 10)).take 10

/-- Python's `str.strip()` as used by the views (`username.strip()`,
`to_email.strip()`, and the whitespace stripping of Django's `CharField`):
drop leading and trailing whitespace. -/
def pyStrip (s : String) : String :=
  String.mk
    (((s.data.dropWhile Char.isWhitespace).reverse.dropWhile
      Char.isWhitespace).reverse)

/-! ## `LoginAjaxView.post` (`audit/views.py`), JSON branch -/

/-- A stored credential row (`auth_user`): username, password and the
`is_active` flag. -/
structure Account where
  username : String
  password : String
  is_active : Bool
  deriving DecidableEq, Repr

/-- `authenticate(request, username=..., password=...)`: the credential
check against the stored accounts, returning the matching account if the
username and password match one. -/
def authenticate (users : List Account) (username password : String) :
    Option Account :=
  users.find? (fun u => username == u.username && password == u.password)

/-- Response of `LoginAjaxView.post` on the JSON path. -/
structure LoginResponse where
  status : Nat
  success : Bool
  errors : Errors
  redirect : Option String
  deriving DecidableEq, Repr

/-- `LoginAjaxView.post`, JSON branch: strip the username, require both
fields, authenticate, check `is_active`, and answer with the generic
invalid-credentials message, the inactive-account message, or the
dashboard redirect. -/
def loginAjax (users : List Account) (username password : String) :
    LoginResponse :=
  let username := pyStrip username
  if username = "" || password = "" then
    { status := 400, success := false
      errors :=
        (if username = "" then [("username", ErrVal.str "Please enter your username.")] else []) ++
        (if password = "" then [("password", ErrVal.str "Please enter your password.")] else [])
      redirect := none }
  else
    match authenticate users username password with
    | none =>
        { status := 400, success := false
          errors := [("__all__", .str "Invalid username or password.")]
          redirect := none }
    | some u =>
        if !u.is_active then
          { status := 400, success := false
            errors := [("__all__", .str "This account is inactive.")]
            redirect := none }
        else
          { status := 200, success := true, errors := []
            redirect := some "/dashboard/" }

/-! ## `AuditShareAjaxView.post` (`audit/views.py`) -/

/-- Modelled from the spec: Django's `validate_email` (the
`EmailValidator` imported by `AuditShareAjaxView.post` and used by
`EmailField`) is framework code not under `src/`; §4.2 of the spec states
that an email address must match `local@domain`, with at least one dot in
the domain and no embedded whitespace. -/
def validEmail (s : String) : Bool :=
  match s.data.splitOn '@' with
  | [loc, dom] =>
      !loc.isEmpty && dom.contains '.' && !(s.data.any Char.isWhitespace)
  | _ => false

/-- One message handed to `send_mail`. -/
structure Email where
  subject : String
  body : String
  from_email : String
  recipient_list : List String
  deriving DecidableEq, Repr

/-- Response body and status of a JSON POST handler that carries no extra
payload (`AuditShareAjaxView.post`, `ClientUpdateAjaxView.post`). -/
structure PostResponse where
  status : Nat
  success : Bool
  errors : Errors
  deriving DecidableEq, Repr

/-- Whether an error value is a list of messages (as opposed to a single
message string). -/
def isListVal : ErrVal → Bool
  | .list _ => true
  | .str _ => false

/-- Whether every value of an error mapping is a single message string
rather than a list of messages. -/
def errorsAllStrings (errs : Errors) : Bool :=
  errs.all (fun kv => !isListVal kv.2)

/-- `AuditShareAjaxView.post` on a parsed JSON body: trim the recipient,
require it, validate it, build the absolute detail link and the message,
and dispatch through `send_mail`.  `mailError = some e` models `send_mail`
raising with text `e`; the function returns the response together with the
list of messages actually dispatched. -/
def shareAudit (base : String) (audit : AuditRow) (to_email message : String)
    (mailError : Option String) : PostResponse × List Email :=
  let to_email := pyStrip to_email
  if to_email = "" then
    ({ status := 400, success := false
       errors := [("to_email", .list ["Recipient email required."])] }, [])
  else if !validEmail to_email then
    ({ status := 400, success := false
       errors := [("to_email", .list ["Enter a valid email address."])] }, [])
  else
    let url := base ++ "/reports/" ++ toString audit.id ++ "/"
    let subject := "Audit Report: " ++ audit.report_number
    let body := message ++ "\n\nView the report: " ++ url
    match mailError with
    | none =>
        ({ status := 200, success := true, errors := [] },
         [{ subject := subject, body := body,
            from_email := "no-reply@localhost", recipient_list := [to_email] }])
    | some e =>
        ({ status := 500, success := false
           errors := [("__all__", .str ("Failed to send email: " ++ e))] }, [])

/-! ## `ClientUpdateAjaxView.post` (`audit/views.py`) and `ClientForm`
(`audit/forms.py`) -/

/-- A persisted `Client` row; the optional contact fields are `none` when
unset (`blank=True, null=True`). -/
structure ClientRow where
  id : Nat
  name : String
  contact_name : Option String
  contact_email : Option String
  contact_phone : Option String
  address : Option String
  deriving DecidableEq, Repr

/-- `payload.get(k)` on the decoded JSON object, modelled as an
association list of string keys and values. -/
def lookupField (payload : List (String × String)) (k : String) :
    Option String :=
  (payload.find? (fun kv => kv.1 == k)).map Prod.snd

/-- `ClientForm.Meta.fields`: the allow-list of updatable fields. -/
def clientFormFields : List String :=
  ["contact_name", "contact_email", "contact_phone", "address"]

/-- Cleaning of an optional `CharField` whose model field has
`null=True`: a missing value, or one that strips to the empty string,
cleans to the empty value `none`. -/
def cleanChar (v : Option String) : Option String :=
  match v with
  | none => none
  | some s => if pyStrip s = "" then none else some (pyStrip s)

/-- Per-field error messages of `ClientForm`: the contact fields bound by
`max_length` (200 / 254 / 50), the address a `TextField`; a non-empty
`contact_email` must additionally be a valid email address. -/
def clientFieldErrors (cn ce cp _ad : Option String) (k : String) :
    List String :=
  if k = "contact_name" then
    match cleanChar cn with
    | none => []
    | some s => if 200 < s.length then
        ["Ensure this value has at most 200 characters."] else []
  else if k = "contact_email" then
    match cleanChar ce with
    | none => []
    | some s =>
        (if 254 < s.length then
          ["Ensure this value has at most 254 characters."] else []) ++
        (if validEmail s then [] else ["Enter a valid email address."])
  else if k = "contact_phone" then
    match cleanChar cp with
    | none => []
    | some s => if 50 < s.length then
        ["Ensure this value has at most 50 characters."] else []
  else if k = "address" then []
  else []

/-- `form.errors` of `ClientForm` on the four allow-listed inputs. -/
def clientFormErrors (cn ce cp ad : Option String) : Errors :=
  (clientFormFields.filter
    (fun k => !(clientFieldErrors cn ce cp ad k).isEmpty)).map
    (fun k => (k, ErrVal.list (clientFieldErrors cn ce cp ad k)))

/-- The core of `ClientUpdateAjaxView.post` once the four allow-listed
values have been extracted: validate with `ClientForm` and, on success,
save — overwriting exactly the four allow-listed fields with their cleaned
values and leaving every other column (`id`, `name`) untouched. -/
def clientUpdateCore (c : ClientRow) (cn ce cp ad : Option String) :
    PostResponse × ClientRow :=
  let errs := clientFormErrors cn ce cp ad
  if errs.isEmpty then
    ({ status := 200, success := true, errors := [] },
     { c with
         contact_name := cleanChar cn
         contact_email := cleanChar ce
         contact_phone := cleanChar cp
         address := cleanChar ad })
  else
    ({ status := 400, success := false, errors := errs }, c)

/-- `ClientUpdateAjaxView.post`, JSON branch: `{k: payload.get(k) for k in
['contact_name', 'contact_email', 'contact_phone', 'address']}` — only the
allow-listed keys are read from the payload. -/
def clientUpdate (c : ClientRow) (payload : List (String × String)) :
    PostResponse × ClientRow :=
  clientUpdateCore c
    (lookupField payload "contact_name")
    (lookupField payload "contact_email")
    (lookupField payload "contact_phone")
    (lookupField payload "address")

/-! ## Concrete fixtures for witnesses and counterexamples -/

/-- Payload whose `overall_score_percentage` is 100.50 (out of range
above) and whose `standard_required` is 0 (lower boundary). -/
def c2payload : AuditPayload :=
  { project := some 1, audit_date := some 20260, audit_type := some "OHS",
    audit_number := some "001", performed_by := some "Tester",
    report_number := some "R-001",
    overall_score_percentage := some 10050, standard_required := some 0,
    improvement_notices := some 0, contravention_notices := some 0,
    prohibition_notices := some 0 }

/-- A create-audit payload that is valid except that all three notice
counters are negative. -/
def c3payload : AuditPayload :=
  { project := some 1, audit_date := some 20260, audit_type := some "OHS",
    audit_number := some "001", performed_by := some "Tester",
    report_number := some "R-001",
    overall_score_percentage := some 8000, standard_required := some 7500,
    improvement_notices := some (-1), contravention_notices := some (-2),
    prohibition_notices := some (-3) }

/-- A store holding one project and no audits yet. -/
def c3store : Store := { projects := [1], audits := [], nextAuditId := 1 }

/-- A fully valid create-audit payload referencing project 1. -/
def c9payload : AuditPayload :=
  { project := some 1, audit_date := some 20261, audit_type := some "OHS",
    audit_number := some "002", performed_by := some "Creator",
    report_number := some "R-002",
    overall_score_percentage := some 9000, standard_required := some 7500,
    improvement_notices := some 0, contravention_notices := some 0,
    prohibition_notices := some 0 }

/-- The same payload but referencing project 42, which does not exist. -/
def c9badpayload : AuditPayload := { c9payload with project := some 42 }

/-- Twenty-five stored audits with distinct audit dates. -/
def c4audits : List AuditRow :=
  (List.range 25).map fun i =>
    { id := i + 1, project := 1, audit_date := 20000 + i,
      audit_type := "OHS", audit_number := "001", performed_by := "Tester",
      report_number := "R-001", overall_score_percentage := 8000,
      standard_required := 7500, improvement_notices := 0,
      contravention_notices := 0, prohibition_notices := 0 }

/-- Two stored accounts: an active one and a deactivated one. -/
def c5users : List Account :=
  [{ username := "alice", password := "correct-horse", is_active := true },
   { username := "bob", password := "battery-staple", is_active := false }]

/-- The audit being shared in the C6/C7 witnesses. -/
def c7audit : AuditRow :=
  { id := 7, project := 1, audit_date := 20260, audit_type := "OHS",
    audit_number := "001", performed_by := "Tester",
    report_number := "CHS-LSC-2025/06", overall_score_percentage := 8000,
    standard_required := 7500, improvement_notices := 0,
    contravention_notices := 0, prohibition_notices := 0 }

/-- A stored client with every contact field set. -/
def c8client : ClientRow :=
  { id := 3, name := "ACME", contact_name := some "Old Contact",
    contact_email := some "client@example.com",
    contact_phone := some "012345", address := some "Old Address" }

/-- A client-update payload that includes the non-allow-listed key
`name` besides the four allow-listed fields. -/
def c8payload : List (String × String) :=
  [("name", "EvilCorp"), ("contact_name", "New Contact"),
   ("contact_email", "new@example.com"), ("contact_phone", "012345"),
   ("address", "New Address")]

/-- The same payload without the extra `name` key. -/
def c8payloadClean : List (String × String) :=
  [("contact_name", "New Contact"), ("contact_email", "new@example.com"),
   ("contact_phone", "012345"), ("address", "New Address")]

/-- A client-update payload carrying only `contact_phone`, omitting the
other three allow-listed fields. -/
def c10payload : List (String × String) := [("contact_phone", "9876")]

/-- Concrete first row used in the C1 witness: a `TrainingCommunication`
record for audit 1 with item type `SAFETY_TALKS`. -/
def c1row : ChecklistRow :=
  { category := .trainingCommunication, audit := 1, item_type := "SAFETY_TALKS",
    required_score := 2, actual_score := 1, appointed_person := none,
    comments := none }

/-- Concrete second row for the C1 witness: same audit and item type,
different score and comments. -/
def c1row₂ : ChecklistRow :=
  { category := .trainingCommunication, audit := 1, item_type := "SAFETY_TALKS",
    required_score := 2, actual_score := 2, appointed_person := none,
    comments := some "second attempt" }

/-- C1: for every checklist category and every audit, inserting a record
whose `(audit, item_type)` key is fresh succeeds, and afterwards inserting
any second record with the same key in the same category fails with the
uniqueness error; moreover every successful insert preserves the invariant
that at most one record exists per `(audit, item_type)` pair per
category. -/
theorem checklist_insert_unique_per_audit :
    (∀ (store : List ChecklistRow) (r : ChecklistRow),
      (∀ x ∈ store, ¬ sameKey x r) →
      ∃ store₂, insertChecklist store r = .ok store₂ ∧
        ∀ r₂ : ChecklistRow, sameKey r₂ r →
          insertChecklist store₂ r₂ = .error "UNIQUE constraint failed") ∧
    (∀ (store store₂ : List ChecklistRow) (r : ChecklistRow),
      UniquePerAudit store → insertChecklist store r = .ok store₂ →
      UniquePerAudit store₂) := by
  constructor
  · intro store r hfresh
    have hany : store.any (fun x => decide (sameKey x r)) = false := by
      simp only [List.any_eq_false, decide_eq_true_eq]
      exact hfresh
    refine ⟨store ++ [r], ?_, ?_⟩
    · simp [insertChecklist, hany]
    · intro r₂ hk
      have hmem : r ∈ store ++ [r] := by simp
      have hkey : sameKey r r₂ :=
        ⟨hk.1.symm, hk.2.1.symm, hk.2.2.symm⟩
      have hany₂ : (store ++ [r]).any (fun x => decide (sameKey x r₂)) = true := by
        simp only [List.any_eq_true, decide_eq_true_eq]
        exact ⟨r, hmem, hkey⟩
      simp [insertChecklist, hany₂]
  · intro store store₂ r hinv hok
    unfold insertChecklist at hok
    by_cases hany : store.any (fun x => decide (sameKey x r)) = true
    · simp [hany] at hok
    · have hany' : store.any (fun x => decide (sameKey x r)) = false := by
        simpa using hany
      simp only [hany', Bool.false_eq_true, if_false, Except.ok.injEq] at hok
      subst hok
      have hfresh : ∀ x ∈ store, ¬ sameKey x r := by
        simpa only [List.any_eq_false, decide_eq_true_eq] using hany'
      unfold UniquePerAudit at hinv ⊢
      rw [List.pairwise_append]
      refine ⟨hinv, by simp, ?_⟩
      intro a ha b hb
      have hbr : b = r := by simpa using hb
      subst hbr
      exact hfresh a ha

/-- Witness for C1: on an empty store the first `SAFETY_TALKS` insert for
audit 1 succeeds and the second one fails with the uniqueness error. -/
theorem checklist_insert_unique_per_audit_witness :
    insertChecklist [] c1row = .ok [c1row] ∧
    insertChecklist [c1row] c1row₂ = .error "UNIQUE constraint failed" := by
  obtain ⟨store₂, h1, h2⟩ :=
    checklist_insert_unique_per_audit.1 [] c1row (by simp)
  have h1' : insertChecklist [] c1row = .ok [c1row] := rfl
  rw [h1'] at h1
  injection h1 with h
  subst h
  exact ⟨h1', h2 c1row₂ (by decide)⟩

/-! ## Helper lemmas on the field-error mapping shape -/

/-- Looking a field up in an error mapping built from a field list and a
per-field error function: the field is present exactly when its error list
is non-empty. -/
theorem lookup_fieldErrors (fields : List String) (f : String → List String)
    (k : String) :
    ((fields.filter (fun x => !(f x).isEmpty)).map
      (fun x => (x, ErrVal.list (f x)))).lookup k
      = if k ∈ fields ∧ f k ≠ [] then some (ErrVal.list (f k)) else none := by
  induction fields with
  | nil => simp
  | cons x xs ih =>
    by_cases hx : f x = []
    · have hb : (!(f x).isEmpty) = false := by simp [hx]
      rw [List.filter_cons, hb]
      simp only [Bool.false_eq_true, if_false]
      rw [ih]
      by_cases hk : k = x
      · subst hk
        simp [hx]
      · simp [List.mem_cons, hk]
    · have hb : (!(f x).isEmpty) = true := by
        simp [List.isEmpty_iff, hx]
      rw [List.filter_cons, hb]
      simp only [if_true]
      by_cases hk : k = x
      · subst hk
        simp [List.lookup, hx]
      · have hbeq : (k == x) = false := by
          simpa using hk
        simp only [List.map_cons, List.lookup, hbeq]
        rw [ih]
        simp [List.mem_cons, hk]

/-- The error mapping is empty exactly when every field validates. -/
theorem fieldErrors_eq_nil (fields : List String) (f : String → List String) :
    ((fields.filter (fun x => !(f x).isEmpty)).map
      (fun x => (x, ErrVal.list (f x)))) = [] ↔ ∀ k ∈ fields, f k = [] := by
  constructor
  · intro h k hk
    by_contra hne
    have hmem : k ∈ fields.filter (fun x => !(f x).isEmpty) := by
      rw [List.mem_filter]
      exact ⟨hk, by simp [List.isEmpty_iff, hne]⟩
    have : (k, ErrVal.list (f k)) ∈
        ((fields.filter (fun x => !(f x).isEmpty)).map
          (fun x => (x, ErrVal.list (f x)))) :=
      List.mem_map_of_mem _ hmem
    rw [h] at this
    exact absurd this (List.not_mem_nil _)
  · intro h
    have : fields.filter (fun x => !(f x).isEmpty) = [] := by
      rw [List.filter_eq_nil_iff]
      intro a ha
      simp [List.isEmpty_iff, h a ha]
    rw [this, List.map_nil]

/-- Membership in the error mapping characterised by the per-field error
function. -/
theorem mem_fieldErrors (fields : List String) (f : String → List String)
    (k : String) (v : ErrVal) :
    (k, v) ∈ ((fields.filter (fun x => !(f x).isEmpty)).map
      (fun x => (x, ErrVal.list (f x)))) ↔
      k ∈ fields ∧ f k ≠ [] ∧ v = ErrVal.list (f k) := by
  rw [List.mem_map]
  constructor
  · rintro ⟨x, hx, hxy⟩
    rw [List.mem_filter] at hx
    have hk : x = k := congrArg Prod.fst hxy
    subst hk
    have hv : v = ErrVal.list (f x) := (congrArg Prod.snd hxy).symm
    refine ⟨hx.1, ?_, hv⟩
    have := hx.2
    simpa [List.isEmpty_iff] using this
  · rintro ⟨hk, hne, hv⟩
    refine ⟨k, ?_, by rw [hv]⟩
    rw [List.mem_filter]
    exact ⟨hk, by simp [List.isEmpty_iff, hne]⟩

/-- `Paginator.num_pages` is at least 1 (the first page always exists,
`allow_empty_first_page`). -/
theorem numPages_pos (count : Nat) : 1 ≤ numPages count := by
  unfold numPages
  omega

/-! ## Claim theorems -/

/-- C2: `AuditModelForm` validation rejects `overall_score_percentage` and
`standard_required` at every value outside the closed interval [0, 100]
(in hundredths: outside [0, 10000]) with an error scoped to that field in
the error mapping, and accepts both fields at the boundary values 0 and
100 exactly (no entry for the field in the error mapping). -/
theorem audit_score_bounds :
    ∀ (projects : List Nat) (p : AuditPayload) (c : Int),
      (p.overall_score_percentage = some c → c < 0 ∨ 10000 < c →
        validateScoreField (some c) ≠ [] ∧
        (auditFormErrors projects p).lookup "overall_score_percentage"
          = some (ErrVal.list (validateScoreField (some c)))) ∧
      (p.standard_required = some c → c < 0 ∨ 10000 < c →
        validateScoreField (some c) ≠ [] ∧
        (auditFormErrors projects p).lookup "standard_required"
          = some (ErrVal.list (validateScoreField (some c)))) ∧
      (p.overall_score_percentage = some c → c = 0 ∨ c = 10000 →
        (auditFormErrors projects p).lookup "overall_score_percentage" = none) ∧
      (p.standard_required = some c → c = 0 ∨ c = 10000 →
        (auditFormErrors projects p).lookup "standard_required" = none) := by
  intro projects p c
  have hfe : auditFieldErrors projects p "overall_score_percentage"
      = validateScoreField p.overall_score_percentage := rfl
  have hfe₂ : auditFieldErrors projects p "standard_required"
      = validateScoreField p.standard_required := rfl
  have hmem : "overall_score_percentage" ∈ auditFormFields := by decide
  have hmem₂ : "standard_required" ∈ auditFormFields := by decide
  have hne : ∀ d : Int, d < 0 ∨ 10000 < d → validateScoreField (some d) ≠ [] := by
    intro d hd h
    simp only [validateScoreField, List.append_eq_nil] at h
    split_ifs at h with h1 h2 h3 <;> simp_all
  have hok : ∀ d : Int, d = 0 ∨ d = 10000 → validateScoreField (some d) = [] := by
    intro d hd
    rcases hd with rfl | rfl <;> decide
  refine ⟨?_, ?_, ?_, ?_⟩
  · intro hp hc
    refine ⟨hne c hc, ?_⟩
    unfold auditFormErrors
    rw [lookup_fieldErrors,
      if_pos ⟨hmem, by rw [hfe, hp]; exact hne c hc⟩, hfe, hp]
  · intro hp hc
    refine ⟨hne c hc, ?_⟩
    unfold auditFormErrors
    rw [lookup_fieldErrors,
      if_pos ⟨hmem₂, by rw [hfe₂, hp]; exact hne c hc⟩, hfe₂, hp]
  · intro hp hc
    unfold auditFormErrors
    rw [lookup_fieldErrors, if_neg]
    rintro ⟨-, hbad⟩
    exact hbad (by rw [hfe, hp]; exact hok c hc)
  · intro hp hc
    unfold auditFormErrors
    rw [lookup_fieldErrors, if_neg]
    rintro ⟨-, hbad⟩
    exact hbad (by rw [hfe₂, hp]; exact hok c hc)

/-- Witness for C2: on `c2payload`, the out-of-range
`overall_score_percentage = 100.50` yields exactly the max-value message
under its own field key, while `standard_required = 0` (lower boundary)
yields no entry. -/
theorem audit_score_bounds_witness :
    (auditFormErrors [1] c2payload).lookup "overall_score_percentage"
      = some (ErrVal.list ["Ensure this value is less than or equal to 100."]) ∧
    (auditFormErrors [1] c2payload).lookup "standard_required" = none := by
  have h := audit_score_bounds [1] c2payload 10050
  have h₂ := audit_score_bounds [1] c2payload 0
  obtain ⟨-, hlook⟩ := h.1 rfl (Or.inr (by decide))
  refine ⟨?_, h₂.2.2.2 rfl (Or.inl rfl)⟩
  rw [hlook]
  decide

/-- C3 counterexample: the three notice counters carry no minimum-value
validator (`models.IntegerField(default=0)`), so a create-audit payload
with negative counters passes `AuditModelForm` validation and is
persisted, contradicting the claim that negative values fail
validation. -/
theorem audit_negative_notices_accepted :
    auditFormErrors c3store.projects c3payload = [] ∧
    (auditCreate c3store (some c3payload)).1.success = true ∧
    (auditCreate c3store (some c3payload)).1.status = 200 ∧
    (auditCreate c3store (some c3payload)).2.audits = [buildAudit 1 c3payload] ∧
    (buildAudit 1 c3payload).improvement_notices = -1 ∧
    (buildAudit 1 c3payload).contravention_notices = -2 ∧
    (buildAudit 1 c3payload).prohibition_notices = -3 := by
  decide

/-- C3 (amended): `AuditModelForm` accepts each of the three notice
counters at every integer of the backend's 32-bit column range —
negative values included — producing no field error for that counter. -/
theorem audit_notice_counters_accept_in_range :
    ∀ (projects : List Nat) (p : AuditPayload) (n : Int),
      -2147483648 ≤ n → n ≤ 2147483647 →
      (p.improvement_notices = some n →
        (auditFormErrors projects p).lookup "improvement_notices" = none) ∧
      (p.contravention_notices = some n →
        (auditFormErrors projects p).lookup "contravention_notices" = none) ∧
      (p.prohibition_notices = some n →
        (auditFormErrors projects p).lookup "prohibition_notices" = none) := by
  intro projects p n hlo hhi
  have hv : validateNoticeField (some n) = [] := by
    simp only [validateNoticeField]
    rw [if_neg (by omega), if_neg (by omega)]
    rfl
  refine ⟨?_, ?_, ?_⟩
  · intro hp
    unfold auditFormErrors
    rw [lookup_fieldErrors, if_neg]
    rintro ⟨-, hbad⟩
    apply hbad
    show auditFieldErrors projects p "improvement_notices" = []
    rw [show auditFieldErrors projects p "improvement_notices"
        = validateNoticeField p.improvement_notices from rfl, hp]
    exact hv
  · intro hp
    unfold auditFormErrors
    rw [lookup_fieldErrors, if_neg]
    rintro ⟨-, hbad⟩
    apply hbad
    show auditFieldErrors projects p "contravention_notices" = []
    rw [show auditFieldErrors projects p "contravention_notices"
        = validateNoticeField p.contravention_notices from rfl, hp]
    exact hv
  · intro hp
    unfold auditFormErrors
    rw [lookup_fieldErrors, if_neg]
    rintro ⟨-, hbad⟩
    apply hbad
    show auditFieldErrors projects p "prohibition_notices" = []
    rw [show auditFieldErrors projects p "prohibition_notices"
        = validateNoticeField p.prohibition_notices from rfl, hp]
    exact hv

/-- Witness for the amended C3: the payload with counters −1, −2, −3
produces no error entry for any of the three counter fields. -/
theorem audit_notice_counters_accept_in_range_witness :
    (auditFormErrors [1] c3payload).lookup "improvement_notices" = none ∧
    (auditFormErrors [1] c3payload).lookup "contravention_notices" = none ∧
    (auditFormErrors [1] c3payload).lookup "prohibition_notices" = none := by
  have h₁ := audit_notice_counters_accept_in_range [1] c3payload (-1)
    (by decide) (by decide)
  have h₂ := audit_notice_counters_accept_in_range [1] c3payload (-2)
    (by decide) (by decide)
  have h₃ := audit_notice_counters_accept_in_range [1] c3payload (-3)
    (by decide) (by decide)
  exact ⟨h₁.1 rfl, h₂.2.1 rfl, h₃.2.2 rfl⟩

/-- C9: `AuditCreateView.post` is validated and atomic: a payload with no
validation errors persists exactly one new `Audit` (appended with the
generated id, which is returned); any payload with validation errors
returns the field-scoped error mapping and leaves the store unchanged; a
project reference naming no existing `Project` is such a validation
failure; and an undecodable body also leaves the store unchanged. -/
theorem audit_create_atomic :
    ∀ (store : Store) (p : AuditPayload),
      (auditFormErrors store.projects p = [] →
        auditCreate store (some p) =
          ({ status := 200, success := true, id := some store.nextAuditId,
             errors := [] },
           { store with
               audits := store.audits ++ [buildAudit store.nextAuditId p]
               nextAuditId := store.nextAuditId + 1 })) ∧
      (auditFormErrors store.projects p ≠ [] →
        auditCreate store (some p) =
          ({ status := 400, success := false, id := none,
             errors := auditFormErrors store.projects p }, store)) ∧
      (∀ pid, p.project = some pid → pid ∉ store.projects →
        auditFormErrors store.projects p ≠ []) ∧
      auditCreate store none =
        ({ status := 400, success := false, id := none,
           errors := [("__all__", .str "Invalid JSON payload.")] }, store) := by
  intro store p
  refine ⟨?_, ?_, ?_, rfl⟩
  · intro h
    simp [auditCreate, h]
  · intro h
    have hne : (auditFormErrors store.projects p).isEmpty = false := by
      simpa [List.isEmpty_iff] using h
    simp [auditCreate, hne]
  · intro pid hp hpid h
    unfold auditFormErrors at h
    have hall := (fieldErrors_eq_nil auditFormFields
      (auditFieldErrors store.projects p)).mp h
    have hk := hall "project" (by decide)
    rw [show auditFieldErrors store.projects p "project"
        = validateProject store.projects p.project from rfl, hp] at hk
    have hc : store.projects.contains pid = false := by
      simpa using hpid
    simp [validateProject, hc] at hk
    exact hpid hk

/-- Witness for C9: creating from the valid payload appends exactly one
audit and returns id 1; the payload naming project 42 fails validation
and leaves the store unchanged. -/
theorem audit_create_atomic_witness :
    auditCreate c3store (some c9payload) =
      ({ status := 200, success := true, id := some 1, errors := [] },
       { projects := [1], audits := [buildAudit 1 c9payload],
         nextAuditId := 2 }) ∧
    auditFormErrors c3store.projects c9badpayload ≠ [] ∧
    (auditCreate c3store (some c9badpayload)).2 = c3store := by
  have h := audit_create_atomic c3store c9payload
  have h₂ := audit_create_atomic c3store c9badpayload
  have hval : auditFormErrors c3store.projects c9payload = [] := by decide
  have hbad := h₂.2.2.1 42 rfl (by decide)
  refine ⟨?_, hbad, ?_⟩
  · rw [h.1 hval]
    decide
  · rw [h₂.2.1 hbad]

/-- C4: the dashboard serves the audits ordered by audit date descending,
ten per page; a non-numeric or missing `page` parameter serves the same
page as page 1, a page number beyond the last (and likewise one below 1)
serves the same page as the last valid page, every page holds at most ten
audits, and with 25 stored audits page 3 holds exactly 5. -/
theorem report_dashboard_pagination :
    ∀ (audits : List AuditRow),
      dashboardPage audits .nonNumeric = dashboardPage audits (.num 1) ∧
      dashboardPage audits .missing = dashboardPage audits (.num 1) ∧
      (∀ n : Int, (numPages audits.length : Int) < n →
        dashboardPage audits (.num n)
          = dashboardPage audits (.num (numPages audits.length))) ∧
      (∀ n : Int, n < 1 →
        dashboardPage audits (.num n)
          = dashboardPage audits (.num (numPages audits.length))) ∧
      (∀ p, (dashboardPage audits p).Sorted auditDateDesc) ∧
      (∀ p, (dashboardPage audits p).length ≤ 10) ∧
      (audits.length = 25 → (dashboardPage audits (.num 3)).length = 5) := by
  intro audits
  have hnp : 1 ≤ numPages audits.length := numPages_pos _
  have hone : resolvedPage audits.length (.num 1) = 1 := by
    simp only [resolvedPage]
    rw [if_neg (by omega), if_neg (by omega)]
    rfl
  have hlast : resolvedPage audits.length (.num (numPages audits.length))
      = numPages audits.length := by
    simp only [resolvedPage]
    rw [if_neg (by omega), if_neg (by omega)]
    omega
  have hnn : resolvedPage audits.length .nonNumeric = 1 := rfl
  have hms : resolvedPage audits.length .missing = 1 := rfl
  refine ⟨?_, ?_, ?_, ?_, ?_, ?_, ?_⟩
  · simp only [dashboardPage, hnn, hone]
  · simp only [dashboardPage, hms, hone]
  · intro n hn
    have hr : resolvedPage audits.length (.num n) = numPages audits.length := by
      simp only [resolvedPage]
      rw [if_neg (by omega), if_pos hn]
    simp only [dashboardPage, hr, hlast]
  · intro n hn
    have hr : resolvedPage audits.length (.num n) = numPages audits.length := by
      simp only [resolvedPage]
      rw [if_pos hn]
    simp only [dashboardPage, hr, hlast]
  · intro p
    have hsorted : (orderedAudits audits).Sorted auditDateDesc :=
      List.sorted_insertionSort auditDateDesc audits
    have hsub : (dashboardPage audits p).Sublist (orderedAudits audits) := by
      simp only [dashboardPage]
      exact (List.take_sublist _ _).trans (List.drop_sublist _ _)
    exact List.Pairwise.sublist hsub hsorted
  · intro p
    simp only [dashboardPage, List.length_take]
    omega
  · intro h25
    have hr : resolvedPage 25 (.num 3) = 3 := by decide
    simp only [dashboardPage, List.length_take, List.length_drop,
      orderedAudits, List.length_insertionSort, h25, hr]
    decide

/-- Witness for C4: with the 25 concrete audits, a non-numeric page equals
page 1, page 99 equals page 3 (the last), and page 3 holds exactly 5
audits. -/
theorem report_dashboard_pagination_witness :
    dashboardPage c4audits .nonNumeric = dashboardPage c4audits (.num 1) ∧
    dashboardPage c4audits (.num 99) = dashboardPage c4audits (.num 3) ∧
    (dashboardPage c4audits (.num 3)).length = 5 := by
  have h := report_dashboard_pagination c4audits
  have hlen : c4audits.length = 25 := rfl
  have hnp : numPages c4audits.length = 3 := by rw [hlen]; decide
  refine ⟨h.1, ?_, h.2.2.2.2.2.2 hlen⟩
  have h99 := h.2.2.1 99 (by rw [hnp]; decide)
  have hcast : ((numPages c4audits.length : Nat) : Int) = 3 := by
    rw [hnp]; decide
  rw [h99, hcast]

/-- C5: a login attempt with an unknown username and one with a known
username but wrong password receive identical responses — the generic
invalid-credentials message — while a login matching the credentials of a
deactivated account receives the distinct inactive-account message. -/
theorem login_no_account_enumeration :
    ∀ (users : List Account) (u₁ p₁ u₂ p₂ u₃ p₃ : String) (a : Account),
      (pyStrip u₁ ≠ "" → p₁ ≠ "" → pyStrip u₂ ≠ "" → p₂ ≠ "" →
        (∀ x ∈ users, x.username ≠ pyStrip u₁) →
        (∀ x ∈ users, x.username = pyStrip u₂ → x.password ≠ p₂) →
        loginAjax users u₁ p₁ = loginAjax users u₂ p₂ ∧
        loginAjax users u₁ p₁ =
          { status := 400, success := false,
            errors := [("__all__", ErrVal.str "Invalid username or password.")],
            redirect := none }) ∧
      (pyStrip u₃ ≠ "" → p₃ ≠ "" →
        authenticate users (pyStrip u₃) p₃ = some a → a.is_active = false →
        loginAjax users u₃ p₃ =
          { status := 400, success := false,
            errors := [("__all__", ErrVal.str "This account is inactive.")],
            redirect := none } ∧
        loginAjax users u₃ p₃ ≠
          { status := 400, success := false,
            errors := [("__all__", ErrVal.str "Invalid username or password.")],
            redirect := none }) := by
  intro users u₁ p₁ u₂ p₂ u₃ p₃ a
  have hgen : ∀ u p : String, pyStrip u ≠ "" → p ≠ "" →
      authenticate users (pyStrip u) p = none →
      loginAjax users u p =
        { status := 400, success := false,
          errors := [("__all__", ErrVal.str "Invalid username or password.")],
          redirect := none } := by
    intro u p hu hp hauth
    simp [loginAjax, hu, hp, hauth]
  constructor
  · intro hu₁ hp₁ hu₂ hp₂ h₁ h₂
    have hauth₁ : authenticate users (pyStrip u₁) p₁ = none := by
      unfold authenticate
      rw [List.find?_eq_none]
      intro x hx
      simp only [Bool.and_eq_true, beq_iff_eq, not_and]
      intro he
      exact absurd he.symm (h₁ x hx)
    have hauth₂ : authenticate users (pyStrip u₂) p₂ = none := by
      unfold authenticate
      rw [List.find?_eq_none]
      intro x hx
      simp only [Bool.and_eq_true, beq_iff_eq, not_and]
      intro he hp'
      exact h₂ x hx he.symm hp'.symm
    rw [hgen u₁ p₁ hu₁ hp₁ hauth₁, hgen u₂ p₂ hu₂ hp₂ hauth₂]
    exact ⟨rfl, rfl⟩
  · intro hu₃ hp₃ hauth hact
    constructor
    · simp [loginAjax, hu₃, hp₃, hauth, hact]
    · simp [loginAjax, hu₃, hp₃, hauth, hact]

/-- Witness for C5: against the concrete account store, the unknown user
`mallory` and the known user `alice` with a wrong password receive the
same response, while the deactivated `bob` with correct credentials
receives the inactive-account response. -/
theorem login_no_account_enumeration_witness :
    loginAjax c5users "mallory" "whatever"
      = loginAjax c5users "alice" "wrong-pass" ∧
    loginAjax c5users "bob" "battery-staple" =
      { status := 400, success := false,
        errors := [("__all__", ErrVal.str "This account is inactive.")],
        redirect := none } := by
  have h := login_no_account_enumeration c5users "mallory" "whatever"
    "alice" "wrong-pass" "bob" "battery-staple"
    { username := "bob", password := "battery-staple", is_active := false }
  obtain ⟨heq, -⟩ := h.1 (by decide) (by decide) (by decide) (by decide)
    (by decide) (by decide)
  exact ⟨heq, (h.2 (by decide) (by decide) (by decide) rfl).1⟩

/-- C6: sharing an existing audit with a syntactically invalid recipient
address returns a 400 response with a `to_email` field error and
dispatches no message; sharing with a valid address returns success and
dispatches exactly one message whose subject carries the audit's report
number and whose body carries the absolute link to the audit's detail
view. -/
theorem audit_share_validation_and_dispatch :
    ∀ (base : String) (audit : AuditRow) (to_email message : String)
      (mailError : Option String),
      (validEmail (pyStrip to_email) = false →
        (shareAudit base audit to_email message mailError).1.status = 400 ∧
        (shareAudit base audit to_email message mailError).1.success = false ∧
        ((shareAudit base audit to_email message mailError).1.errors
            = [("to_email", .list ["Recipient email required."])] ∨
         (shareAudit base audit to_email message mailError).1.errors
            = [("to_email", .list ["Enter a valid email address."])]) ∧
        (shareAudit base audit to_email message mailError).2 = []) ∧
      (validEmail (pyStrip to_email) = true →
        shareAudit base audit to_email message none =
          ({ status := 200, success := true, errors := [] },
           [{ subject := "Audit Report: " ++ audit.report_number,
              body := message ++ "\n\nView the report: " ++ base
                ++ "/reports/" ++ toString audit.id ++ "/",
              from_email := "no-reply@localhost",
              recipient_list := [pyStrip to_email] }])) := by
  intro base audit to_email message mailError
  constructor
  · intro hv
    by_cases he : pyStrip to_email = ""
    · simp [shareAudit, he]
    · simp [shareAudit, he, hv]
  · intro hv
    have he : pyStrip to_email ≠ "" := by
      intro h
      rw [h] at hv
      exact absurd hv (by decide)
    simp [shareAudit, he, hv, String.append_assoc]

/-- Witness for C6: sharing `c7audit` with `bad-email` yields a 400 and no
dispatch; sharing with `receiver@example.com` yields success and exactly
the one expected message. -/
theorem audit_share_validation_and_dispatch_witness :
    (shareAudit "http://testserver" c7audit "bad-email" "" none).1.status = 400 ∧
    (shareAudit "http://testserver" c7audit "bad-email" "" none).2 = [] ∧
    shareAudit "http://testserver" c7audit "receiver@example.com"
        "Please see report" none =
      ({ status := 200, success := true, errors := [] },
       [{ subject := "Audit Report: CHS-LSC-2025/06",
          body := "Please see report\n\nView the report: http://testserver/reports/7/",
          from_email := "no-reply@localhost",
          recipient_list := ["receiver@example.com"] }]) := by
  have h₁ := audit_share_validation_and_dispatch "http://testserver" c7audit
    "bad-email" "" none
  have h₂ := audit_share_validation_and_dispatch "http://testserver" c7audit
    "receiver@example.com" "Please see report" none
  obtain ⟨hs, -, -, hd⟩ := h₁.1 (by decide)
  have hok := h₂.2 (by decide)
  refine ⟨hs, hd, ?_⟩
  rw [hok]
  decide

/-- C7 counterexample: when the mail dispatch throws, the 500 response
maps the non-field key `__all__` to a single message string — no entry of
the error mapping is a list of messages, contrary to the claim's required
field-name → list-of-messages shape. -/
theorem audit_share_failure_not_list :
    (shareAudit "http://testserver" c7audit "receiver@example.com"
      "Please see report" (some "SMTP connection refused")).1 =
      { status := 500, success := false,
        errors := [("__all__",
          ErrVal.str "Failed to send email: SMTP connection refused")] } ∧
    errorsAllStrings
      (shareAudit "http://testserver" c7audit "receiver@example.com"
        "Please see report" (some "SMTP connection refused")).1.errors
      = true := by
  decide

/-- C7 (amended): when the mail dispatch throws with text `e`, the
response is a 500 failure whose error mapping maps the non-field key
`__all__` to the single message string `"Failed to send email: " ++ e`
(not to a list of messages), and no message is dispatched. -/
theorem audit_share_failure_string_error :
    ∀ (base : String) (audit : AuditRow) (to_email message e : String),
      validEmail (pyStrip to_email) = true →
      shareAudit base audit to_email message (some e) =
        ({ status := 500, success := false,
           errors := [("__all__",
             ErrVal.str ("Failed to send email: " ++ e))] }, []) := by
  intro base audit to_email message e hv
  have he : pyStrip to_email ≠ "" := by
    intro h
    rw [h] at hv
    exact absurd hv (by decide)
  simp [shareAudit, he, hv]

/-- Witness for the amended C7: the concrete failing dispatch produces
exactly the 500 response with the single string error message. -/
theorem audit_share_failure_string_error_witness :
    shareAudit "http://testserver" c7audit "receiver@example.com"
        "Please see report" (some "boom") =
      ({ status := 500, success := false,
         errors := [("__all__", ErrVal.str "Failed to send email: boom")] },
       []) := by
  have h := audit_share_failure_string_error "http://testserver" c7audit
    "receiver@example.com" "Please see report" "boom" (by decide)
  rw [h]
  decide

/-- C8: the client update only ever writes the four allow-listed fields —
`name` (and `id`) are unchanged by every update — and any two payloads
agreeing on the four allow-listed keys produce identical outcomes, so an
extra submitted field (e.g. `name`) is ignored and causes no error. -/
theorem client_update_allowlist :
    ∀ (c : ClientRow) (payload payload₂ : List (String × String)),
      (clientUpdate c payload).2.name = c.name ∧
      (clientUpdate c payload).2.id = c.id ∧
      ((∀ k ∈ clientFormFields, lookupField payload k = lookupField payload₂ k) →
        clientUpdate c payload = clientUpdate c payload₂) := by
  intro c payload payload₂
  refine ⟨?_, ?_, ?_⟩
  · simp only [clientUpdate, clientUpdateCore]
    split <;> rfl
  · simp only [clientUpdate, clientUpdateCore]
    split <;> rfl
  · intro hagree
    have h1 := hagree "contact_name" (by decide)
    have h2 := hagree "contact_email" (by decide)
    have h3 := hagree "contact_phone" (by decide)
    have h4 := hagree "address" (by decide)
    unfold clientUpdate
    rw [h1, h2, h3, h4]

/-- Witness for C8: updating `c8client` with the payload carrying the
extra `name` key leaves the stored name `ACME` unchanged and gives exactly
the same outcome as the payload without the extra key. -/
theorem client_update_allowlist_witness :
    (clientUpdate c8client c8payload).2.name = "ACME" ∧
    clientUpdate c8client c8payload = clientUpdate c8client c8payloadClean := by
  have h := client_update_allowlist c8client c8payload c8payloadClean
  exact ⟨h.1, h.2.2 (by decide)⟩

/-- C10: on a successful client update, every allow-listed field that is
absent from the JSON payload is overwritten with the empty value (the
handler builds the form input with `payload.get(field)` for all four
allowed fields, so an omitted key clears the stored value). -/
theorem client_update_clears_omitted :
    ∀ (c : ClientRow) (payload : List (String × String)),
      (clientUpdate c payload).1.success = true →
      (lookupField payload "contact_name" = none →
        (clientUpdate c payload).2.contact_name = none) ∧
      (lookupField payload "contact_email" = none →
        (clientUpdate c payload).2.contact_email = none) ∧
      (lookupField payload "contact_phone" = none →
        (clientUpdate c payload).2.contact_phone = none) ∧
      (lookupField payload "address" = none →
        (clientUpdate c payload).2.address = none) := by
  intro c payload hs
  have hbranch : (clientFormErrors
      (lookupField payload "contact_name")
      (lookupField payload "contact_email")
      (lookupField payload "contact_phone")
      (lookupField payload "address")).isEmpty = true := by
    by_contra hc
    have hfalse : (clientFormErrors
        (lookupField payload "contact_name")
        (lookupField payload "contact_email")
        (lookupField payload "contact_phone")
        (lookupField payload "address")).isEmpty = false := by
      revert hc
      cases (clientFormErrors
        (lookupField payload "contact_name")
        (lookupField payload "contact_email")
        (lookupField payload "contact_phone")
        (lookupField payload "address")).isEmpty <;> simp
    simp only [clientUpdate, clientUpdateCore, hfalse, Bool.false_eq_true,
      if_false] at hs
  have hnil : clientFormErrors
      (lookupField payload "contact_name")
      (lookupField payload "contact_email")
      (lookupField payload "contact_phone")
      (lookupField payload "address") = [] := List.isEmpty_iff.mp hbranch
  refine ⟨?_, ?_, ?_, ?_⟩ <;> intro hnone <;> rw [hnone] at hnil <;>
    simp [clientUpdate, clientUpdateCore, hnone, hnil, cleanChar]

/-- Witness for C10: updating `c8client` with a payload carrying only
`contact_phone` succeeds and clears the stored contact name, contact
email and address. -/
theorem client_update_clears_omitted_witness :
    (clientUpdate c8client c10payload).1.success = true ∧
    (clientUpdate c8client c10payload).2.contact_name = none ∧
    (clientUpdate c8client c10payload).2.contact_email = none ∧
    (clientUpdate c8client c10payload).2.address = none := by
  have hs : (clientUpdate c8client c10payload).1.success = true := by decide
  have h := client_update_clears_omitted c8client c10payload hs
  exact ⟨hs, h.1 (by decide), h.2.1 (by decide), h.2.2.2 (by decide)⟩

end InternalAudit
